import Mathlib

/-!
Shallow embedding of `src/index.ts` of openai-image-cli.

The program has two phases:
* `parseArgs` — resolves the prompt (positional argument, then `--prompt`,
  then `--prompt-file`), parses `--n` with JavaScript `parseInt`, and
  returns a `Params` record (or exits 1 when the prompt file cannot be read);
* `generateImages` — checks the `OPENAI_API_KEY` credential and the prompt,
  clamps `n` to 1 for single-image-only models, issues one generation call,
  and runs the sequential download-and-save loop.

Effects are made explicit: the file system is a function from paths to
`Except` (read error or contents), the environment and the provider response
live in a `World` record, and the observable behaviour (exit code, whether
the outbound call was attempted, the files written, warnings, errors) is
collected in an `Outcome` record.
-/

namespace ImageCli

/-- The option values commander hands to `parseArgs` (`program.opts()`),
with the defaults `size = "1024x1024"`, `n = "1"`, `model = "dall-e-3"`
already applied by commander when a flag is absent. -/
structure RawOptions where
  prompt : Option String
  promptFile : Option String
  size : String
  n : String
  model : String
deriving Repr, DecidableEq

/-- A parsed command line: the positional arguments (`program.args`) and the
flag values. -/
structure CmdLine where
  positional : List String
  opts : RawOptions
deriving Repr, DecidableEq

/-- JavaScript truthiness of an optional string: `undefined` and the empty
string are falsy, every other string is truthy. -/
def jsTruthy : Option String → Bool
  | none => false
  | some s => !(s == "")

/-- The file system as seen by `readFile`: a path is mapped either to its
contents or to the message of the I/O error the read throws. -/
def FileSystem : Type := String → Except String String

/-- JavaScript `parseInt(s, 10)`: skip leading whitespace, read an optional
sign, then the longest prefix of decimal digits; `none` models `NaN`. -/
def parseIntJS (s : String) : Option Int :=
  let cs := s.toList.dropWhile fun c =>
    c == ' ' || c == '\t' || c == '\n' || c == '\r' || c == '\x0b' || c == '\x0c'
  let signAndRest : Int × List Char :=
    match cs with
    | '-' :: r => (-1, r)
    | '+' :: r => (1, r)
    | r => (1, r)
  let ds := signAndRest.2.takeWhile Char.isDigit
  if ds.isEmpty then none
  else some (signAndRest.1 * (ds.foldl (fun a c => a * 10 + (c.toNat - 48)) 0 : Nat))

/-- The record `parseArgs` returns: the resolved prompt (`null` when no
source supplied one), the size string, the `parseInt`-parsed count
(`none` models `NaN`), and the model string. -/
structure Params where
  prompt : Option String
  size : String
  n : Option Int
  model : String
deriving Repr, DecidableEq

/-- `parseArgs`: prompt precedence is positional argument, then `--prompt`
(truthy check), then `--prompt-file` (truthy check; contents are trimmed,
a read failure prints `Error reading prompt file: <message>` and exits 1,
modelled as the `Except.error` branch). -/
def parseArgs (cmd : CmdLine) (fs : FileSystem) : Except String Params :=
  let promptStep : Except String (Option String) :=
    match cmd.positional with
    | a :: _ => .ok (some a)
    | [] =>
      if jsTruthy cmd.opts.prompt then .ok cmd.opts.prompt
      else
        match cmd.opts.promptFile with
        | some path =>
          if path == "" then .ok none
          else
            match fs path with
            | .ok contents => .ok (some contents.trim)
            | .error e => .error ("Error reading prompt file: " ++ e)
        | none => .ok none
  promptStep.map fun p =>
    { prompt := p
      size := cmd.opts.size
      n := parseIntJS cmd.opts.n
      model := cmd.opts.model }

/-- One entry of the provider's `response.data`, carrying an optional URL. -/
structure ImageData where
  url : Option String
deriving Repr, DecidableEq

/-- The payload of the single outbound `openai.images.generate` call. -/
structure GenRequest where
  model : String
  prompt : String
  n : Option Int
  size : String
deriving Repr, DecidableEq

/-- The environment `generateImages` runs in: the credential variable, the
outcome of the generation call (`Except.error` models a thrown API error,
`Option` models the possibly absent `response.data`), whether the fetch and
the file write for a given URL succeed, and the `Date.now()` value captured
while saving item `i` (0-based). -/
structure World where
  apiKey : Option String
  apiResult : Except String (Option (List ImageData))
  fetchWriteOk : String → Bool
  timestamps : Nat → Nat

/-- The observable behaviour of one invocation. -/
structure Outcome where
  exitCode : Nat
  apiCalled : Bool
  request : Option GenRequest
  filesWritten : List String
  warnings : List String
  errors : List String
deriving Repr, DecidableEq

/-- The models for which `generateImages` clamps `n` to 1. -/
def singleImageModels : List String := ["dall-e-3", "gpt-image", "gpt-image-mini"]

/-- `params.n > 1` in JavaScript: false when `n` is `NaN`. -/
def nGreaterOne : Option Int → Bool
  | none => false
  | some v => v > 1

/-- The filename built for item `i` (0-based) in the download loop:
`generated_image_<timestamp>_<i+1>.png`. -/
def mkFilename (ts : Nat) (idx : Nat) : String :=
  "generated_image_" ++ toString ts ++ "_" ++ toString idx ++ ".png"

/-- The body of the download loop from index `i` on: an entry with no URL
reports `Image <i+1>: No URL returned` and continues; otherwise the item is
fetched and written (producing a file named by `mkFilename`), a failure
reporting `Failed to download image <i+1>` and continuing. Returns the files
written and the per-item error reports, in loop order. -/
def downloadItems (w : World) : Nat → List ImageData → List String × List String
  | _, [] => ([], [])
  | i, d :: rest =>
    let later := downloadItems w (i + 1) rest
    match d.url with
    | none => (later.1, ("Image " ++ toString (i + 1) ++ ": No URL returned") :: later.2)
    | some u =>
      if w.fetchWriteOk u then
        (mkFilename (w.timestamps i) (i + 1) :: later.1, later.2)
      else
        (later.1, ("Failed to download image " ++ toString (i + 1)) :: later.2)

/-- `generateImages`: check the credential (truthy), check the prompt
(truthy), clamp `n` to 1 with a warning for single-image-only models, issue
the generation call, treat an empty (or absent) `response.data` as fatal,
and otherwise run the download loop and finish with exit code 0. -/
def generateImages (w : World) (params : Params) : Outcome :=
  if !jsTruthy w.apiKey then
    { exitCode := 1, apiCalled := false, request := none, filesWritten := []
      warnings := []
      errors := ["Error: OPENAI_API_KEY environment variable is not set",
                 "Please set your OpenAI API key: export OPENAI_API_KEY=your-key-here"] }
  else if !jsTruthy params.prompt then
    { exitCode := 1, apiCalled := false, request := none, filesWritten := []
      warnings := []
      errors := ["Error: Prompt is required", "Use --help for usage information"] }
  else
    let clamp := singleImageModels.contains params.model && nGreaterOne params.n
    let effN := if clamp then some 1 else params.n
    let warns :=
      if clamp then
        ["Warning: " ++ params.model ++ " only supports n=1. Setting n to 1."]
      else []
    let req : GenRequest :=
      { model := params.model, prompt := params.prompt.getD "", n := effN, size := params.size }
    match w.apiResult with
    | .error e =>
      { exitCode := 1, apiCalled := true, request := some req, filesWritten := []
        warnings := warns, errors := ["Error generating images:", e] }
    | .ok dataOpt =>
      let data := dataOpt.getD []
      if data.isEmpty then
        { exitCode := 1, apiCalled := true, request := some req, filesWritten := []
          warnings := warns, errors := ["No images were generated"] }
      else
        let loop := downloadItems w 0 data
        { exitCode := 0, apiCalled := true, request := some req, filesWritten := loop.1
          warnings := warns, errors := loop.2 }

/-- The `Outcome` of a parse failure: `process.exit(1)` before
`generateImages` ever runs. -/
def parseFailOutcome (e : String) : Outcome :=
  { exitCode := 1, apiCalled := false, request := none, filesWritten := []
    warnings := [], errors := [e] }

/-- The whole invocation: `parseArgs` then `generateImages`. -/
def runMain (cmd : CmdLine) (fs : FileSystem) (w : World) : Outcome :=
  match parseArgs cmd fs with
  | .error e => parseFailOutcome e
  | .ok params => generateImages w params

end ImageCli

namespace ImageCli

theorem jsTruthy_none : jsTruthy none = false := rfl

theorem jsTruthy_some (s : String) : jsTruthy (some s) = !(s == "") := rfl

/-- C1: the effective prompt is resolved with fixed precedence: a positional
argument is used verbatim; otherwise a truthy `--prompt` value is used;
otherwise a truthy `--prompt-file` path is read and its contents trimmed and
used — so a non-empty prompt supplied through any one source resolves to
that source's value under positional > flag > file precedence. -/
theorem C1_prompt_precedence (cmd : CmdLine) (fs : FileSystem) :
    (∀ a rest, cmd.positional = a :: rest →
      ∃ p, parseArgs cmd fs = .ok p ∧ p.prompt = some a) ∧
    (∀ s, cmd.positional = [] → cmd.opts.prompt = some s → s ≠ "" →
      ∃ p, parseArgs cmd fs = .ok p ∧ p.prompt = some s) ∧
    (∀ path contents, cmd.positional = [] → jsTruthy cmd.opts.prompt = false →
      cmd.opts.promptFile = some path → path ≠ "" → fs path = .ok contents →
      ∃ p, parseArgs cmd fs = .ok p ∧ p.prompt = some contents.trim) := by
  refine ⟨?_, ?_, ?_⟩
  · intro a rest h
    refine ⟨{ prompt := some a, size := cmd.opts.size,
              n := parseIntJS cmd.opts.n, model := cmd.opts.model }, ?_, rfl⟩
    simp [parseArgs, h, Except.map]
  · intro s hpos hflag hs
    refine ⟨{ prompt := some s, size := cmd.opts.size,
              n := parseIntJS cmd.opts.n, model := cmd.opts.model }, ?_, rfl⟩
    simp [parseArgs, hpos, hflag, jsTruthy_some, hs, Except.map]
  · intro path contents hpos hflag hfile hne hread
    refine ⟨{ prompt := some contents.trim, size := cmd.opts.size,
              n := parseIntJS cmd.opts.n, model := cmd.opts.model }, ?_, rfl⟩
    simp [parseArgs, hpos, hflag, hfile, hne, hread, Except.map]

/-- Witness for C1: a concrete invocation supplying the prompt positionally
resolves to that positional value. -/
theorem C1_prompt_precedence_witness :
    ∃ p, parseArgs
        { positional := ["a sunset"],
          opts := { prompt := some "ignored", promptFile := none,
                    size := "1024x1024", n := "1", model := "dall-e-3" } }
        (fun _ => .error "ENOENT") = .ok p ∧ p.prompt = some "a sunset" :=
  (C1_prompt_precedence
    { positional := ["a sunset"],
      opts := { prompt := some "ignored", promptFile := none,
                size := "1024x1024", n := "1", model := "dall-e-3" } }
    (fun _ => .error "ENOENT")).1 "a sunset" [] rfl

/-- C5: when the `OPENAI_API_KEY` environment variable is absent the process
exits with code 1 and no generation call is attempted; whenever parsing
succeeded, the error printed is the credential error with its remediation
instruction. -/
theorem C5_missing_credential (cmd : CmdLine) (fs : FileSystem) (w : World)
    (h : w.apiKey = none) :
    (runMain cmd fs w).exitCode = 1 ∧ (runMain cmd fs w).apiCalled = false ∧
    (∀ p, parseArgs cmd fs = .ok p →
      (runMain cmd fs w).errors =
        ["Error: OPENAI_API_KEY environment variable is not set",
         "Please set your OpenAI API key: export OPENAI_API_KEY=your-key-here"]) := by
  unfold runMain
  cases hp : parseArgs cmd fs with
  | error e => simp [parseFailOutcome]
  | ok p => simp [generateImages, jsTruthy, h]

/-- Witness for C5: a concrete invocation with the credential absent. -/
theorem C5_missing_credential_witness :
    (runMain
      { positional := ["a cat"],
        opts := { prompt := none, promptFile := none,
                  size := "1024x1024", n := "1", model := "dall-e-3" } }
      (fun _ => .error "ENOENT")
      { apiKey := none, apiResult := .ok (some [{ url := some "u" }]),
        fetchWriteOk := fun _ => true, timestamps := fun _ => 0 }).exitCode = 1 ∧
    (runMain
      { positional := ["a cat"],
        opts := { prompt := none, promptFile := none,
                  size := "1024x1024", n := "1", model := "dall-e-3" } }
      (fun _ => .error "ENOENT")
      { apiKey := none, apiResult := .ok (some [{ url := some "u" }]),
        fetchWriteOk := fun _ => true, timestamps := fun _ => 0 }).apiCalled = false :=
  ⟨(C5_missing_credential _ _ _ rfl).1, (C5_missing_credential _ _ _ rfl).2.1⟩

/-- C6: when none of the three prompt sources supplies a value, the process
exits with code 1 and no generation call is attempted; when the credential
is present, the error printed is the missing-prompt error. -/
theorem C6_missing_prompt (cmd : CmdLine) (fs : FileSystem) (w : World)
    (hpos : cmd.positional = []) (hflag : cmd.opts.prompt = none)
    (hfile : cmd.opts.promptFile = none) :
    (runMain cmd fs w).exitCode = 1 ∧ (runMain cmd fs w).apiCalled = false ∧
    (jsTruthy w.apiKey = true →
      (runMain cmd fs w).errors =
        ["Error: Prompt is required", "Use --help for usage information"]) := by
  unfold runMain
  have hp : parseArgs cmd fs =
      .ok { prompt := none, size := cmd.opts.size,
            n := parseIntJS cmd.opts.n, model := cmd.opts.model } := by
    simp [parseArgs, hpos, hflag, hfile, jsTruthy_none, Except.map]
  rw [hp]
  cases hk : jsTruthy w.apiKey with
  | false => simp [generateImages, hk, jsTruthy_none]
  | true => simp [generateImages, hk, jsTruthy_none]

/-- Witness for C6: a concrete invocation with no prompt source and the
credential present. -/
theorem C6_missing_prompt_witness :
    (runMain
      { positional := [],
        opts := { prompt := none, promptFile := none,
                  size := "1024x1024", n := "1", model := "dall-e-3" } }
      (fun _ => .error "ENOENT")
      { apiKey := some "sk-test", apiResult := .ok (some [{ url := some "u" }]),
        fetchWriteOk := fun _ => true, timestamps := fun _ => 0 }).exitCode = 1 ∧
    (runMain
      { positional := [],
        opts := { prompt := none, promptFile := none,
                  size := "1024x1024", n := "1", model := "dall-e-3" } }
      (fun _ => .error "ENOENT")
      { apiKey := some "sk-test", apiResult := .ok (some [{ url := some "u" }]),
        fetchWriteOk := fun _ => true, timestamps := fun _ => 0 }).errors =
      ["Error: Prompt is required", "Use --help for usage information"] :=
  ⟨(C6_missing_prompt _ _ _ rfl rfl rfl).1,
   (C6_missing_prompt _ _ _ rfl rfl rfl).2.2 rfl⟩

/-- C7: when the prompt is taken from `--prompt-file` and reading the file
fails, the process exits with code 1, the diagnostic carries the underlying
I/O error message, and no generation call is made. -/
theorem C7_prompt_file_read_failure (cmd : CmdLine) (fs : FileSystem) (w : World)
    (hpos : cmd.positional = []) (hflag : jsTruthy cmd.opts.prompt = false)
    (path msg : String) (hfile : cmd.opts.promptFile = some path) (hne : path ≠ "")
    (hread : fs path = .error msg) :
    (runMain cmd fs w).exitCode = 1 ∧ (runMain cmd fs w).apiCalled = false ∧
    (runMain cmd fs w).errors = ["Error reading prompt file: " ++ msg] := by
  unfold runMain
  have hp : parseArgs cmd fs = .error ("Error reading prompt file: " ++ msg) := by
    simp [parseArgs, hpos, hflag, hfile, hne, hread, Except.map]
  rw [hp]
  simp [parseFailOutcome]

/-- Witness for C7: a concrete invocation whose only prompt source is a file
the file system fails to read. -/
theorem C7_prompt_file_read_failure_witness :
    (runMain
      { positional := [],
        opts := { prompt := none, promptFile := some "missing.txt",
                  size := "1024x1024", n := "1", model := "dall-e-3" } }
      (fun _ => .error "ENOENT: no such file or directory")
      { apiKey := some "sk-test", apiResult := .ok (some [{ url := some "u" }]),
        fetchWriteOk := fun _ => true, timestamps := fun _ => 0 }).errors =
      ["Error reading prompt file: " ++ "ENOENT: no such file or directory"] :=
  (C7_prompt_file_read_failure
    { positional := [],
      opts := { prompt := none, promptFile := some "missing.txt",
                size := "1024x1024", n := "1", model := "dall-e-3" } }
    (fun _ => .error "ENOENT: no such file or directory")
    { apiKey := some "sk-test", apiResult := .ok (some [{ url := some "u" }]),
      fetchWriteOk := fun _ => true, timestamps := fun _ => 0 }
    rfl rfl "missing.txt" "ENOENT: no such file or directory" rfl (by decide) rfl).2.2

end ImageCli

namespace ImageCli

/-- The files the loop writes when every fetch and write succeeds, phrased
as the claimed naming scheme: one `generated_image_<timestamp>_<index>.png`
per entry carrying a URL, `index` being the entry's 1-based position. -/
def expectedFiles (w : World) : Nat → List ImageData → List String
  | _, [] => []
  | i, d :: rest =>
    match d.url with
    | none => expectedFiles w (i + 1) rest
    | some _ => mkFilename (w.timestamps i) (i + 1) :: expectedFiles w (i + 1) rest

theorem downloadItems_total (w : World) (data : List ImageData) :
    ∀ i, (downloadItems w i data).1.length + (downloadItems w i data).2.length
      = data.length := by
  induction data with
  | nil => intro i; simp [downloadItems]
  | cons d rest ih =>
    intro i
    cases hu : d.url with
    | none =>
      simp [downloadItems, hu]
      have := ih (i + 1)
      omega
    | some u =>
      by_cases hw : w.fetchWriteOk u
      · simp [downloadItems, hu, hw]
        have := ih (i + 1)
        omega
      · simp [downloadItems, hu, hw]
        have := ih (i + 1)
        omega

theorem downloadItems_all_ok (w : World) (data : List ImageData)
    (hdl : ∀ x ∈ data, ∀ u, x.url = some u → w.fetchWriteOk u = true) :
    ∀ i, (downloadItems w i data).1 = expectedFiles w i data := by
  induction data with
  | nil => intro i; simp [downloadItems, expectedFiles]
  | cons d rest ih =>
    intro i
    have hrest : ∀ x ∈ rest, ∀ u, x.url = some u → w.fetchWriteOk u = true :=
      fun x hx => hdl x (List.mem_cons_of_mem d hx)
    cases hu : d.url with
    | none => simp [downloadItems, expectedFiles, hu, ih hrest]
    | some u =>
      have hw : w.fetchWriteOk u = true := hdl d (List.mem_cons_self d rest) u hu
      simp [downloadItems, expectedFiles, hu, hw, ih hrest]

theorem expectedFiles_length (w : World) (data : List ImageData) :
    ∀ i, (expectedFiles w i data).length
      + (data.filter fun x => x.url.isNone).length = data.length := by
  induction data with
  | nil => intro i; simp [expectedFiles]
  | cons d rest ih =>
    intro i
    cases hu : d.url with
    | none =>
      simp only [expectedFiles, hu, List.filter_cons, Option.isNone_none, if_true,
        List.length_cons]
      have := ih (i + 1)
      omega
    | some u =>
      simp only [expectedFiles, hu, List.filter_cons, Option.isNone_some,
        Bool.false_eq_true, if_false, List.length_cons]
      have := ih (i + 1)
      omega

theorem generateImages_request (w : World) (params : Params)
    (hkey : jsTruthy w.apiKey = true) (hprompt : jsTruthy params.prompt = true) :
    (generateImages w params).request =
      some { model := params.model, prompt := params.prompt.getD "",
             n := if singleImageModels.contains params.model && nGreaterOne params.n
                  then some 1 else params.n,
             size := params.size } ∧
    (generateImages w params).warnings =
      (if singleImageModels.contains params.model && nGreaterOne params.n
       then ["Warning: " ++ params.model ++ " only supports n=1. Setting n to 1."]
       else []) := by
  unfold generateImages
  rw [hkey, hprompt]
  cases w.apiResult with
  | error e => simp
  | ok dataOpt =>
    by_cases h : (dataOpt.getD []).isEmpty <;> simp [h]

/-- C2: for a resolved request that reaches the call phase, a model in the
single-image-only set with requested count greater than 1 has its count
clamped to exactly 1 in the outbound request and the clamp warning is
emitted; a model outside that set passes a positive parsed count through to
the generation call unchanged. -/
theorem C2_count_clamp (w : World) (params : Params)
    (hkey : jsTruthy w.apiKey = true) (hprompt : jsTruthy params.prompt = true) :
    (singleImageModels.contains params.model = true → nGreaterOne params.n = true →
      (∃ r, (generateImages w params).request = some r ∧ r.n = some 1) ∧
      (generateImages w params).warnings =
        ["Warning: " ++ params.model ++ " only supports n=1. Setting n to 1."]) ∧
    (singleImageModels.contains params.model = false →
      ∀ k : Int, params.n = some k →
      ∃ r, (generateImages w params).request = some r ∧ r.n = some k) := by
  obtain ⟨hreq, hwarn⟩ := generateImages_request w params hkey hprompt
  constructor
  · intro hm hn
    rw [hm, hn] at hreq hwarn
    exact ⟨⟨_, hreq, by simp⟩, by simpa using hwarn⟩
  · intro hm k hk
    rw [hm] at hreq
    exact ⟨_, hreq, by simp [hk]⟩

/-- Witness for C2: `dall-e-3` with `--n 3` reaches the call with count 1
and the warning emitted; the hypotheses are discharged at a concrete world
and params. -/
theorem C2_count_clamp_witness :
    (∃ r, (generateImages
      { apiKey := some "sk-test", apiResult := .ok (some [{ url := some "u" }]),
        fetchWriteOk := fun _ => true, timestamps := fun _ => 0 }
      { prompt := some "a cat", size := "1024x1024", n := some 3, model := "dall-e-3" }).request
        = some r ∧ r.n = some 1) ∧
    (generateImages
      { apiKey := some "sk-test", apiResult := .ok (some [{ url := some "u" }]),
        fetchWriteOk := fun _ => true, timestamps := fun _ => 0 }
      { prompt := some "a cat", size := "1024x1024", n := some 3, model := "dall-e-3" }).warnings
      = ["Warning: " ++ "dall-e-3" ++ " only supports n=1. Setting n to 1."] :=
  (C2_count_clamp
    { apiKey := some "sk-test", apiResult := .ok (some [{ url := some "u" }]),
      fetchWriteOk := fun _ => true, timestamps := fun _ => 0 }
    { prompt := some "a cat", size := "1024x1024", n := some 3, model := "dall-e-3" }
    (by decide) (by decide)).1 (by decide) (by decide)

end ImageCli

namespace ImageCli

/-- C3: once the generation call succeeds with at least one entry, every
entry either yields a written file or a per-item error report — so each
failure is reported and the loop continues — and the process exits 0
regardless of how many items failed, including all of them. -/
theorem C3_per_item_failures_nonfatal (w : World) (params : Params)
    (hkey : jsTruthy w.apiKey = true) (hprompt : jsTruthy params.prompt = true)
    (data : List ImageData) (hne : data ≠ []) (hres : w.apiResult = .ok (some data)) :
    (generateImages w params).exitCode = 0 ∧
    (generateImages w params).filesWritten.length
      + (generateImages w params).errors.length = data.length := by
  unfold generateImages
  rw [hkey, hprompt, hres]
  cases data with
  | nil => exact absurd rfl hne
  | cons d rest =>
    simp only [Bool.not_true, Bool.false_eq_true, if_false, Option.getD_some,
      List.isEmpty_cons, List.length_cons]
    exact ⟨trivial, downloadItems_total w (d :: rest) 0⟩

/-- Witness for C3: a single entry whose download fails still gives exit
code 0, with the failure reported as the one error. -/
theorem C3_per_item_failures_nonfatal_witness :
    (generateImages
      { apiKey := some "sk-test", apiResult := .ok (some [{ url := some "u" }]),
        fetchWriteOk := fun _ => false, timestamps := fun _ => 0 }
      { prompt := some "a cat", size := "1024x1024", n := some 1, model := "dall-e-3" }).exitCode
      = 0 ∧
    (generateImages
      { apiKey := some "sk-test", apiResult := .ok (some [{ url := some "u" }]),
        fetchWriteOk := fun _ => false, timestamps := fun _ => 0 }
      { prompt := some "a cat", size := "1024x1024", n := some 1, model := "dall-e-3" }).filesWritten.length
      + (generateImages
      { apiKey := some "sk-test", apiResult := .ok (some [{ url := some "u" }]),
        fetchWriteOk := fun _ => false, timestamps := fun _ => 0 }
      { prompt := some "a cat", size := "1024x1024", n := some 1, model := "dall-e-3" }).errors.length
      = 1 :=
  C3_per_item_failures_nonfatal
    { apiKey := some "sk-test", apiResult := .ok (some [{ url := some "u" }]),
      fetchWriteOk := fun _ => false, timestamps := fun _ => 0 }
    { prompt := some "a cat", size := "1024x1024", n := some 1, model := "dall-e-3" }
    (by decide) (by decide) [{ url := some "u" }] (by decide) rfl

/-- C4: when the call returns `N` entries of which `M` lack a URL and every
remaining fetch and write succeeds, the files written are exactly one
`generated_image_<timestamp>_<index>.png` per URL-carrying entry with the
entry's 1-based index, hence exactly `N - M` files, and the exit code is 0. -/
theorem C4_files_written (w : World) (params : Params)
    (hkey : jsTruthy w.apiKey = true) (hprompt : jsTruthy params.prompt = true)
    (data : List ImageData) (hne : data ≠ []) (hres : w.apiResult = .ok (some data))
    (hdl : ∀ x ∈ data, ∀ u, x.url = some u → w.fetchWriteOk u = true) :
    (generateImages w params).exitCode = 0 ∧
    (generateImages w params).filesWritten = expectedFiles w 0 data ∧
    (generateImages w params).filesWritten.length
      = data.length - (data.filter fun x => x.url.isNone).length := by
  unfold generateImages
  rw [hkey, hprompt, hres]
  cases data with
  | nil => exact absurd rfl hne
  | cons d rest =>
    simp only [Bool.not_true, Bool.false_eq_true, if_false, Option.getD_some,
      List.isEmpty_cons]
    refine ⟨trivial, downloadItems_all_ok w (d :: rest) hdl 0, ?_⟩
    rw [downloadItems_all_ok w (d :: rest) hdl 0]
    have := expectedFiles_length w (d :: rest) 0
    omega

/-- Witness for C4: two entries, the second lacking a URL, write exactly one
file named `generated_image_<timestamp>_1.png` and exit 0. -/
theorem C4_files_written_witness :
    (generateImages
      { apiKey := some "sk-test",
        apiResult := .ok (some [{ url := some "u" }, { url := none }]),
        fetchWriteOk := fun _ => true, timestamps := fun _ => 42 }
      { prompt := some "a cat", size := "1024x1024", n := some 1, model := "dall-e-3" }).filesWritten
      = ["generated_image_42_1.png"] ∧
    (generateImages
      { apiKey := some "sk-test",
        apiResult := .ok (some [{ url := some "u" }, { url := none }]),
        fetchWriteOk := fun _ => true, timestamps := fun _ => 42 }
      { prompt := some "a cat", size := "1024x1024", n := some 1, model := "dall-e-3" }).filesWritten.length
      = 2 - 1 := by
  have h := C4_files_written
    { apiKey := some "sk-test",
      apiResult := .ok (some [{ url := some "u" }, { url := none }]),
      fetchWriteOk := fun _ => true, timestamps := fun _ => 42 }
    { prompt := some "a cat", size := "1024x1024", n := some 1, model := "dall-e-3" }
    (by decide) (by decide) [{ url := some "u" }, { url := none }] (by decide) rfl
    (by intro x hx u hu; rfl)
  refine ⟨?_, ?_⟩
  · rw [h.2.1]; rfl
  · rw [h.2.2]; rfl

/-- C8: a generation call that succeeds with zero result entries (or with no
data collection at all) is fatal: exit code 1 and no files written. -/
theorem C8_zero_results_fatal (w : World) (params : Params)
    (hkey : jsTruthy w.apiKey = true) (hprompt : jsTruthy params.prompt = true)
    (dataOpt : Option (List ImageData)) (hres : w.apiResult = .ok dataOpt)
    (hempty : dataOpt.getD [] = []) :
    (generateImages w params).exitCode = 1 ∧
    (generateImages w params).apiCalled = true ∧
    (generateImages w params).filesWritten = [] ∧
    (generateImages w params).errors = ["No images were generated"] := by
  unfold generateImages
  rw [hkey, hprompt, hres]
  simp [hempty]

/-- Witness for C8: a call returning an empty data list exits 1 having
written no file. -/
theorem C8_zero_results_fatal_witness :
    (generateImages
      { apiKey := some "sk-test", apiResult := .ok (some []),
        fetchWriteOk := fun _ => true, timestamps := fun _ => 0 }
      { prompt := some "a cat", size := "1024x1024", n := some 1, model := "dall-e-3" }).exitCode
      = 1 ∧
    (generateImages
      { apiKey := some "sk-test", apiResult := .ok (some []),
        fetchWriteOk := fun _ => true, timestamps := fun _ => 0 }
      { prompt := some "a cat", size := "1024x1024", n := some 1, model := "dall-e-3" }).filesWritten
      = [] :=
  ⟨(C8_zero_results_fatal
      { apiKey := some "sk-test", apiResult := .ok (some []),
        fetchWriteOk := fun _ => true, timestamps := fun _ => 0 }
      { prompt := some "a cat", size := "1024x1024", n := some 1, model := "dall-e-3" }
      (by decide) (by decide) (some []) rfl rfl).1,
   (C8_zero_results_fatal
      { apiKey := some "sk-test", apiResult := .ok (some []),
        fetchWriteOk := fun _ => true, timestamps := fun _ => 0 }
      { prompt := some "a cat", size := "1024x1024", n := some 1, model := "dall-e-3" }
      (by decide) (by decide) (some []) rfl rfl).2.2.1⟩

end ImageCli

namespace ImageCli

theorem except_map_ok {α β γ : Type} (f : β → γ) (e : Except α β) (c : γ)
    (h : Except.map f e = .ok c) : ∃ b, e = .ok b ∧ c = f b := by
  cases e with
  | error a => simp [Except.map] at h
  | ok b =>
    refine ⟨b, rfl, ?_⟩
    simpa [Except.map] using h.symm

theorem parseArgs_ok_n (cmd : CmdLine) (fs : FileSystem) (p : Params)
    (h : parseArgs cmd fs = .ok p) : p.n = parseIntJS cmd.opts.n := by
  simp only [parseArgs] at h
  obtain ⟨b, _, hp⟩ := except_map_ok _ _ _ h
  rw [hp]

/-- C9 counterexample: with `--n 0` and model `dall-e-2` (credential and
prompt present, so the invocation reaches the generation call), the resolved
request carries count 0 — not a positive integer — refuting the claim that
every invocation reaching the call has a positive count. -/
theorem C9_count_positive_counterexample :
    (runMain
      { positional := ["a cat"],
        opts := { prompt := none, promptFile := none,
                  size := "1024x1024", n := "0", model := "dall-e-2" } }
      (fun _ => .error "ENOENT")
      { apiKey := some "sk-test", apiResult := .ok (some [{ url := some "u" }]),
        fetchWriteOk := fun _ => true, timestamps := fun _ => 0 }).apiCalled = true ∧
    (runMain
      { positional := ["a cat"],
        opts := { prompt := none, promptFile := none,
                  size := "1024x1024", n := "0", model := "dall-e-2" } }
      (fun _ => .error "ENOENT")
      { apiKey := some "sk-test", apiResult := .ok (some [{ url := some "u" }]),
        fetchWriteOk := fun _ => true, timestamps := fun _ => 0 }).request =
      some { model := "dall-e-2", prompt := "a cat", n := some 0, size := "1024x1024" } ∧
    ¬ (0 : Int) > 0 := by
  refine ⟨?_, ?_, by decide⟩ <;> decide

/-- C9 (amended): for every invocation that reaches the generation call and
whose `--n` value parses to a positive integer (the default `"1"` included),
the count field of the resolved request is a positive integer — the clamp
can only replace it with 1. -/
theorem C9_count_positive_amended (cmd : CmdLine) (fs : FileSystem) (w : World)
    (k : Int) (hk : parseIntJS cmd.opts.n = some k) (hkpos : 0 < k)
    (r : GenRequest) (hr : (runMain cmd fs w).request = some r) :
    ∃ m : Int, r.n = some m ∧ 0 < m := by
  unfold runMain at hr
  cases hp : parseArgs cmd fs with
  | error e =>
    rw [hp] at hr
    simp [parseFailOutcome] at hr
  | ok p =>
    rw [hp] at hr
    have hn : p.n = some k := by rw [parseArgs_ok_n cmd fs p hp, hk]
    cases hkey : jsTruthy w.apiKey with
    | false => simp [generateImages, hkey] at hr
    | true =>
      cases hpr : jsTruthy p.prompt with
      | false => simp [generateImages, hkey, hpr] at hr
      | true =>
        obtain ⟨hreq, _⟩ := generateImages_request w p hkey hpr
        rw [hreq] at hr
        have hre := Option.some.inj hr
        subst hre
        cases hclamp : singleImageModels.contains p.model && nGreaterOne p.n with
        | true => exact ⟨1, by simp [hclamp], by norm_num⟩
        | false => exact ⟨k, by simp [hclamp, hn], hkpos⟩

/-- Witness for the amended C9: `--n 2` with model `dall-e-2` reaches the
call with the positive count 2. -/
theorem C9_count_positive_amended_witness :
    ∃ m : Int,
      GenRequest.n { model := "dall-e-2", prompt := "a cat", n := some 2,
                     size := "1024x1024" } = some m ∧ 0 < m :=
  C9_count_positive_amended
    { positional := ["a cat"],
      opts := { prompt := none, promptFile := none,
                size := "1024x1024", n := "2", model := "dall-e-2" } }
    (fun _ => .error "ENOENT")
    { apiKey := some "sk-test", apiResult := .ok (some [{ url := some "u" }]),
      fetchWriteOk := fun _ => true, timestamps := fun _ => 0 }
    2 (by decide) (by decide)
    { model := "dall-e-2", prompt := "a cat", n := some 2, size := "1024x1024" }
    (by decide)

theorem run_missing_prompt (cmd : CmdLine) (fs : FileSystem) (w : World)
    (p : Params) (hp : parseArgs cmd fs = .ok p) (hpr : jsTruthy p.prompt = false) :
    (runMain cmd fs w).exitCode = 1 ∧ (runMain cmd fs w).apiCalled = false ∧
    (jsTruthy w.apiKey = true →
      (runMain cmd fs w).errors =
        ["Error: Prompt is required", "Use --help for usage information"]) := by
  unfold runMain
  rw [hp]
  cases hkey : jsTruthy w.apiKey with
  | false => simp [generateImages, hkey]
  | true => simp [generateImages, hkey, hpr]

/-- C10: when the only prompt source yields an empty string — an empty
positional argument, an empty `--prompt` value, or a `--prompt-file` whose
contents trim to the empty string — the prompt is treated as missing: exit
code 1, no generation call, and (when the credential is present) the
missing-prompt error. -/
theorem C10_empty_prompt_missing (cmd : CmdLine) (fs : FileSystem) (w : World) :
    (∀ rest, cmd.positional = "" :: rest →
      (runMain cmd fs w).exitCode = 1 ∧ (runMain cmd fs w).apiCalled = false ∧
      (jsTruthy w.apiKey = true →
        (runMain cmd fs w).errors =
          ["Error: Prompt is required", "Use --help for usage information"])) ∧
    (cmd.positional = [] → cmd.opts.prompt = some "" → cmd.opts.promptFile = none →
      (runMain cmd fs w).exitCode = 1 ∧ (runMain cmd fs w).apiCalled = false ∧
      (jsTruthy w.apiKey = true →
        (runMain cmd fs w).errors =
          ["Error: Prompt is required", "Use --help for usage information"])) ∧
    (∀ path s, cmd.positional = [] → jsTruthy cmd.opts.prompt = false →
      cmd.opts.promptFile = some path → path ≠ "" → fs path = .ok s → s.trim = "" →
      (runMain cmd fs w).exitCode = 1 ∧ (runMain cmd fs w).apiCalled = false ∧
      (jsTruthy w.apiKey = true →
        (runMain cmd fs w).errors =
          ["Error: Prompt is required", "Use --help for usage information"])) := by
  refine ⟨?_, ?_, ?_⟩
  · intro rest h
    refine run_missing_prompt cmd fs w
      { prompt := some "", size := cmd.opts.size,
        n := parseIntJS cmd.opts.n, model := cmd.opts.model } ?_ rfl
    simp [parseArgs, h, Except.map]
  · intro hpos hflag hfile
    refine run_missing_prompt cmd fs w
      { prompt := none, size := cmd.opts.size,
        n := parseIntJS cmd.opts.n, model := cmd.opts.model } ?_ rfl
    simp [parseArgs, hpos, hflag, hfile, jsTruthy_some, Except.map]
  · intro path s hpos hflag hfile hne hread htrim
    refine run_missing_prompt cmd fs w
      { prompt := some s.trim, size := cmd.opts.size,
        n := parseIntJS cmd.opts.n, model := cmd.opts.model } ?_ ?_
    · simp [parseArgs, hpos, hflag, hfile, hne, hread, Except.map]
    · simp [jsTruthy_some, htrim]

/-- Witness for C10: an empty positional argument with the credential
present exits 1 with the missing-prompt error. -/
theorem C10_empty_prompt_missing_witness :
    (runMain
      { positional := [""],
        opts := { prompt := none, promptFile := none,
                  size := "1024x1024", n := "1", model := "dall-e-3" } }
      (fun _ => .error "ENOENT")
      { apiKey := some "sk-test", apiResult := .ok (some [{ url := some "u" }]),
        fetchWriteOk := fun _ => true, timestamps := fun _ => 0 }).exitCode = 1 ∧
    (runMain
      { positional := [""],
        opts := { prompt := none, promptFile := none,
                  size := "1024x1024", n := "1", model := "dall-e-3" } }
      (fun _ => .error "ENOENT")
      { apiKey := some "sk-test", apiResult := .ok (some [{ url := some "u" }]),
        fetchWriteOk := fun _ => true, timestamps := fun _ => 0 }).errors =
      ["Error: Prompt is required", "Use --help for usage information"] := by
  have h := (C10_empty_prompt_missing
    { positional := [""],
      opts := { prompt := none, promptFile := none,
                size := "1024x1024", n := "1", model := "dall-e-3" } }
    (fun _ => .error "ENOENT")
    { apiKey := some "sk-test", apiResult := .ok (some [{ url := some "u" }]),
      fetchWriteOk := fun _ => true, timestamps := fun _ => 0 }).1 [] rfl
  exact ⟨h.1, h.2.2 rfl⟩

end ImageCli
